import Mathlib

/-!
Shallow embedding of `pkg/asset/installconfig/installconfig.go` from the
openshift-installer repository, together with proofs of the specified
properties of `Generate`, `Load` and `fetchInstallConfigFile`.

External collaborators (the YAML codec, the schema validator, the file
fetcher, the logger) are modelled as explicit function parameters or as
output lists; the state mutated through the asset receiver is passed
explicitly and returned.
-/

/-- The canonical filename constant `installConfigFilename`. -/
def installConfigFilename : String := "install-config.yaml"

/-- The deprecated filename constant `deprecatedInstallConfigFilename`. -/
def deprecatedInstallConfigFilename : String := "install-config.yml"

/-- `defaultMachineCIDR = ipnet.MustParseCIDR("10.0.0.0/16")`; CIDRs are
modelled by their textual representation. -/
def defaultMachineCIDR : String := "10.0.0.0/16"

/-- `defaultServiceCIDR = ipnet.MustParseCIDR("172.30.0.0/16")`. -/
def defaultServiceCIDR : String := "172.30.0.0/16"

/-- `defaultClusterCIDR = "10.128.0.0/14"`. -/
def defaultClusterCIDR : String := "10.128.0.0/14"

/-- `defaultHostSubnetLength = 9`. -/
def defaultHostSubnetLength : Nat := 9

namespace libvirt

/-- Modelled from the spec: `libvirt.DefaultMachineCIDR`, the
reduced-footprint (libvirt) variant's machine-network CIDR override, lives in
`pkg/asset/installconfig/libvirt`, outside the sources shown; the spec only
says it overrides the global default, so all that matters here is that it is
a fixed value distinct from `defaultMachineCIDR`. -/
def DefaultMachineCIDR : String := "192.168.126.0/24"

end libvirt

/-- `netopv1.ClusterNetwork`: one cluster network entry (external type; only
the two fields used by this file are modelled). -/
structure ClusterNetwork where
  CIDR : String
  HostSubnetLength : Nat
deriving DecidableEq

/-- `types.Networking` as used by this file. The Go field `Type` (the
network-plugin type) is named `NetworkType` because `Type` is reserved in
Lean. -/
structure Networking where
  NetworkType : String
  MachineCIDR : String
  ServiceCIDR : String
  ClusterNetworks : List ClusterNetwork
deriving DecidableEq

/-- `types.MachinePool`: `Replicas *int64` becomes `Option Int`. -/
structure MachinePool where
  Name : String
  Replicas : Option Int
deriving DecidableEq

/-- Platform-specific sub-configuration for AWS. Its fields are defined in
`pkg/types`, outside the sources shown, and never inspected by this file, so
the payload is kept opaque as a single string. -/
structure AWSPlatform where
  raw : String
deriving DecidableEq

/-- Platform-specific sub-configuration for libvirt (opaque payload, as for
`AWSPlatform`). -/
structure LibvirtPlatform where
  raw : String
deriving DecidableEq

/-- Platform-specific sub-configuration for the "none" platform (opaque
payload). -/
structure NonePlatform where
  raw : String
deriving DecidableEq

/-- Platform-specific sub-configuration for OpenStack (opaque payload). -/
structure OpenStackPlatform where
  raw : String
deriving DecidableEq

/-- The `platform` dependency asset: a tagged variant realised in Go as four
mutually exclusive pointer fields (fields as consumed by `Generate`). -/
structure Platform where
  AWS : Option AWSPlatform
  Libvirt : Option LibvirtPlatform
  None : Option NonePlatform
  OpenStack : Option OpenStackPlatform
deriving DecidableEq

/-- How many of the four platform variant fields are populated. -/
def Platform.populatedCount (p : Platform) : Nat :=
  (if p.AWS.isSome then 1 else 0) + (if p.Libvirt.isSome then 1 else 0) +
    (if p.None.isSome then 1 else 0) + (if p.OpenStack.isSome then 1 else 0)

namespace types

/-- `types.InstallConfig`: the configuration artifact.  `ObjectMeta.Name`
is flattened to the field `Name`; the four platform pointers become
options. -/
structure InstallConfig where
  Name : String
  ClusterID : String
  SSHKey : String
  BaseDomain : String
  Networking : Networking
  PullSecret : String
  Machines : List MachinePool
  AWS : Option AWSPlatform
  Libvirt : Option LibvirtPlatform
  None : Option NonePlatform
  OpenStack : Option OpenStackPlatform
deriving DecidableEq

end types

/-- `asset.File`: a named byte payload (bytes modelled as a string). -/
structure File where
  Filename : String
  Data : String
deriving DecidableEq

/-- The `InstallConfig` asset's mutable state: `Config *types.InstallConfig`
and `File *asset.File`. -/
structure InstallConfigAsset where
  Config : Option types.InstallConfig
  File : Option File
deriving DecidableEq

/-- The resolved dependency value set fetched through `parents.Get`:
`clusterID`, `sshPublicKey` (field `Key`), `baseDomain`, `clusterName`,
`pullSecret` and the `platform` asset. -/
structure Parents where
  ClusterID : String
  SSHKey : String
  BaseDomain : String
  ClusterName : String
  PullSecret : String
  Platform : Platform
deriving DecidableEq

/-- Outcome of `Generate`: normal return, the `panic("unknown platform
type")` of the `default` switch branch (a fatal signal, distinct from a
returned error), or the returned error `errors.Wrap(err, "failed to Marshal
InstallConfig")` carrying the underlying marshal error. -/
inductive GenerateOutcome where
  | ok : GenerateOutcome
  | panicked (msg : String) : GenerateOutcome
  | marshalFailed (underlying : String) : GenerateOutcome
deriving DecidableEq

/-- Result of `Generate`: the outcome together with the asset state as left
by the method (in the panic case, the state at the moment of the panic). -/
structure GenerateResult where
  outcome : GenerateOutcome
  asset : InstallConfigAsset
deriving DecidableEq

/-- The base `types.InstallConfig` literal assigned to `a.Config` at the top
of `Generate`, before the platform switch. -/
def baseConfig (parents : Parents) : types.InstallConfig :=
  { Name := parents.ClusterName
    ClusterID := parents.ClusterID
    SSHKey := parents.SSHKey
    BaseDomain := parents.BaseDomain
    Networking :=
      { NetworkType := "OpenshiftSDN"
        MachineCIDR := defaultMachineCIDR
        ServiceCIDR := defaultServiceCIDR
        ClusterNetworks :=
          [{ CIDR := defaultClusterCIDR
             HostSubnetLength := defaultHostSubnetLength }] }
    PullSecret := parents.PullSecret
    Machines := []
    AWS := none
    Libvirt := none
    None := none
    OpenStack := none }

/-- The platform switch of `Generate`, case by case in source order
(`AWS`, `Libvirt`, `None`, `OpenStack`); returns the updated config together
with `numberOfMasters` and `numberOfWorkers`, or `none` for the `default`
branch that panics. -/
def applyPlatform (config : types.InstallConfig) (p : Platform) :
    Option (types.InstallConfig × Int × Int) :=
  match p.AWS with
  | some aws => some ({ config with AWS := some aws }, 3, 3)
  | none =>
  match p.Libvirt with
  | some lv =>
      some ({ config with
                Libvirt := some lv
                Networking :=
                  { config.Networking with
                      MachineCIDR := libvirt.DefaultMachineCIDR } }, 1, 1)
  | none =>
  match p.None with
  | some np => some ({ config with None := some np }, 3, 3)
  | none =>
  match p.OpenStack with
  | some os => some ({ config with OpenStack := some os }, 3, 3)
  | none => none

/-- The tail of `Generate` after the machine pools are set: `yaml.Marshal`
the config and either return the wrapped error (leaving `a.File` as it was,
`a.Config` already overwritten) or store the serialized file under the
canonical filename. -/
def materialize (a : InstallConfigAsset) (config : types.InstallConfig)
    (marshal : types.InstallConfig → Except String String) : GenerateResult :=
  match marshal config with
  | .error e =>
      { outcome := .marshalFailed e
        asset := { a with Config := some config } }
  | .ok data =>
      { outcome := .ok
        asset :=
          { Config := some config
            File := some { Filename := installConfigFilename
                           Data := data } } }

/-- `(*InstallConfig).Generate`.  The YAML serializer `yaml.Marshal` is an
external collaborator, passed in as `marshal`; the asset receiver state is
passed and returned explicitly. -/
def Generate (a : InstallConfigAsset) (parents : Parents)
    (marshal : types.InstallConfig → Except String String) : GenerateResult :=
  let config := baseConfig parents
  match applyPlatform config parents.Platform with
  | none =>
      { outcome := .panicked "unknown platform type"
        asset := { a with Config := some config } }
  | some (config, numberOfMasters, numberOfWorkers) =>
      materialize a
        { config with
            Machines :=
              [{ Name := "master", Replicas := some numberOfMasters },
               { Name := "worker", Replicas := some numberOfWorkers }] }
        marshal

/-- `(*InstallConfig).Files`. -/
def Files (a : InstallConfigAsset) : List File :=
  match a.File with
  | some f => [f]
  | none => []

/-- An error returned by the file fetcher: either one for which
`os.IsNotExist` holds, or any other storage error. -/
inductive FetchError where
  | notExist : FetchError
  | other (msg : String) : FetchError
deriving DecidableEq

/-- `os.IsNotExist` on a fetch error. -/
def FetchError.isNotExist : FetchError → Bool
  | .notExist => true
  | .other _ => false

/-- The `asset.FileFetcher` collaborator: `FetchByName`. -/
def FileFetcher : Type := String → Except FetchError File

/-- The loop body of `fetchInstallConfigFile` over the indexed name list:
on success at index `i ≠ 0` the logical filename is rewritten to the
canonical one and the `logrus.Warnf` deprecation message is emitted
(warnings are collected in the returned list); a fetch error that is not
"not exist" aborts the loop. -/
def fetchLoop (f : FileFetcher) (canonical : String) :
    Nat → List String → Except FetchError (Option File × List String)
  | _, [] => .ok (none, [])
  | i, name :: rest =>
    match f name with
    | .ok file =>
        if i ≠ 0 then
          .ok (some { file with Filename := canonical },
            ["Using deprecated " ++ name ++ " file. Use " ++ canonical ++
              " instead."])
        else
          .ok (some file, [])
    | .error e =>
        if e.isNotExist then fetchLoop f canonical (i + 1) rest
        else .error e

/-- `fetchInstallConfigFile`: try the canonical filename, then the
deprecated one, in that fixed order. -/
def fetchInstallConfigFile (f : FileFetcher) :
    Except FetchError (Option File × List String) :=
  fetchLoop f installConfigFilename 0
    [installConfigFilename, deprecatedInstallConfigFilename]

/-- An error returned by `Load`: the fetch error passed through unwrapped,
the wrapped unmarshal error `errors.Wrapf(err, "failed to unmarshal")`, or
the wrapped validation error `errors.Wrapf(err, "invalid %q file",
installConfigFilename)` carrying the validator's non-empty verdict. -/
inductive LoadError where
  | fetch (e : FetchError) : LoadError
  | unmarshal (underlying : String) : LoadError
  | invalid (verdict : List String) : LoadError
deriving DecidableEq

/-- The wrapping context added by `Load` around the underlying error
(`none` for a fetch error, which is returned unwrapped). -/
def LoadError.context : LoadError → Option String
  | .fetch _ => none
  | .unmarshal _ => some "failed to unmarshal"
  | .invalid _ =>
      some ("invalid \"" ++ installConfigFilename ++ "\" file")

/-- The rendered message of a load error: the wrap context, a colon, then
the underlying error (the validator's field errors aggregated into one
composite message, as the external aggregate does). -/
def LoadError.message : LoadError → String
  | .fetch .notExist => "file does not exist"
  | .fetch (.other m) => m
  | .unmarshal e => "failed to unmarshal: " ++ e
  | .invalid verdict =>
      "invalid \"" ++ installConfigFilename ++ "\" file: " ++
        String.intercalate ", " verdict

/-- Result of `Load`: the `(found, err)` pair, the asset state as left by
the method, and the warnings emitted during file discovery. -/
structure LoadResult where
  found : Bool
  err : Option LoadError
  asset : InstallConfigAsset
  warnings : List String
deriving DecidableEq

/-- `(*InstallConfig).Load`.  The YAML deserializer (`yaml.Unmarshal`) and
the external validator (`validation.ValidateInstallConfig`, whose
`ToAggregate` is `nil` exactly when the verdict list is empty) are passed in
as `unmarshal` and `validate`; the asset receiver state is explicit. -/
def Load (a : InstallConfigAsset) (f : FileFetcher)
    (unmarshal : String → Except String types.InstallConfig)
    (validate : types.InstallConfig → List String) : LoadResult :=
  match fetchInstallConfigFile f with
  | .error e => { found := false, err := some (.fetch e), asset := a, warnings := [] }
  | .ok (none, ws) => { found := false, err := none, asset := a, warnings := ws }
  | .ok (some file, ws) =>
    match unmarshal file.Data with
    | .error e =>
        { found := false, err := some (.unmarshal e), asset := a, warnings := ws }
    | .ok config =>
      match validate config with
      | [] =>
          { found := true, err := none
            asset := { Config := some config, File := some file }
            warnings := ws }
      | verdict =>
          { found := false, err := some (.invalid verdict), asset := a
            warnings := ws }

/-! ## Concrete sample inputs

Used by the witness and counterexample theorems below. -/

/-- A fresh asset state, as before any generation or load. -/
def emptyAsset : InstallConfigAsset := { Config := none, File := none }

/-- A serializer that always succeeds (stand-in for `yaml.Marshal`, which is
deterministic and total on these values). -/
def sampleMarshal : types.InstallConfig → Except String String :=
  fun _ => .ok "serialized-install-config"

/-- A serializer that fails, to exercise the marshal-error branch. -/
def failingMarshal : types.InstallConfig → Except String String :=
  fun _ => .error "boom"

/-- A sample dependency value set with only the AWS variant populated. -/
def parentsAWS : Parents :=
  { ClusterID := "cid", SSHKey := "ssh-key", BaseDomain := "example.com"
    ClusterName := "cluster", PullSecret := "secret"
    Platform := { AWS := some { raw := "aws" }, Libvirt := none
                  None := none, OpenStack := none } }

/-- A sample dependency value set with only the libvirt variant populated. -/
def parentsLibvirt : Parents :=
  { parentsAWS with
      Platform := { AWS := none, Libvirt := some { raw := "libvirt" }
                    None := none, OpenStack := none } }

/-- A sample dependency value set with no platform variant populated. -/
def parentsZero : Parents :=
  { parentsAWS with
      Platform := { AWS := none, Libvirt := none
                    None := none, OpenStack := none } }

/-- A sample dependency value set with two platform variants populated. -/
def parentsBoth : Parents :=
  { parentsAWS with
      Platform := { AWS := some { raw := "aws" }
                    Libvirt := some { raw := "libvirt" }
                    None := none, OpenStack := none } }

/-- Storage holding both the canonical and the deprecated file. -/
def fetcherBoth : FileFetcher := fun name =>
  if name = installConfigFilename then
    .ok { Filename := installConfigFilename, Data := "canonical-bytes" }
  else if name = deprecatedInstallConfigFilename then
    .ok { Filename := deprecatedInstallConfigFilename, Data := "deprecated-bytes" }
  else .error .notExist

/-- Storage holding only the deprecated file. -/
def fetcherDeprecated : FileFetcher := fun name =>
  if name = deprecatedInstallConfigFilename then
    .ok { Filename := deprecatedInstallConfigFilename, Data := "deprecated-bytes" }
  else .error .notExist

/-- Empty storage: every fetch reports "not exist". -/
def fetcherEmpty : FileFetcher := fun _ => .error .notExist

/-- Storage whose canonical-name fetch fails with a non-"not exist" error. -/
def fetcherIOError : FileFetcher := fun name =>
  if name = installConfigFilename then .error (.other "io failure")
  else .ok { Filename := deprecatedInstallConfigFilename, Data := "deprecated-bytes" }

/-- A sample deserialized configuration. -/
def sampleConfig : types.InstallConfig := baseConfig parentsAWS

/-- A deserializer that always succeeds with `sampleConfig`. -/
def sampleUnmarshal : String → Except String types.InstallConfig :=
  fun _ => .ok sampleConfig

/-- A deserializer that always fails (unparseable bytes). -/
def failingUnmarshal : String → Except String types.InstallConfig :=
  fun _ => .error "parse error"

/-- An asset state with prior contents, to show `Generate` ignores it. -/
def dirtyAsset : InstallConfigAsset :=
  { Config := some (baseConfig parentsAWS)
    File := some { Filename := "other-file", Data := "junk" } }

/-- A validator that accepts everything (empty verdict). -/
def acceptingValidator : types.InstallConfig → List String := fun _ => []

/-- A validator that rejects everything with one field error. -/
def rejectingValidator : types.InstallConfig → List String :=
  fun _ => ["spec.baseDomain: Invalid value"]

/-! ## Helper lemmas -/

theorem materialize_asset_Config (a : InstallConfigAsset)
    (c : types.InstallConfig) (m : types.InstallConfig → Except String String) :
    (materialize a c m).asset.Config = some c := by
  unfold materialize
  cases m c <;> rfl

theorem materialize_outcome_ne_panicked (a : InstallConfigAsset)
    (c : types.InstallConfig) (m : types.InstallConfig → Except String String)
    (msg : String) : (materialize a c m).outcome ≠ .panicked msg := by
  unfold materialize
  cases m c <;> simp

theorem materialize_ok (a : InstallConfigAsset) (c : types.InstallConfig)
    (m : types.InstallConfig → Except String String) (d : String)
    (h : m c = .ok d) :
    materialize a c m =
      { outcome := .ok
        asset := { Config := some c
                   File := some { Filename := installConfigFilename, Data := d } } } := by
  unfold materialize
  rw [h]

theorem materialize_error (a : InstallConfigAsset) (c : types.InstallConfig)
    (m : types.InstallConfig → Except String String) (e : String)
    (h : m c = .error e) :
    materialize a c m =
      { outcome := .marshalFailed e
        asset := { a with Config := some c } } := by
  unfold materialize
  rw [h]

/-- Unfolding equation for `Generate` exposing the platform switch and the
materializer step. -/
theorem Generate_eq (a : InstallConfigAsset) (parents : Parents)
    (marshal : types.InstallConfig → Except String String) :
    Generate a parents marshal =
      match applyPlatform (baseConfig parents) parents.Platform with
      | none =>
          { outcome := .panicked "unknown platform type"
            asset := { a with Config := some (baseConfig parents) } }
      | some (c, nm, nw) =>
          materialize a
            { c with Machines :=
                [{ Name := "master", Replicas := some nm },
                 { Name := "worker", Replicas := some nw }] } marshal := rfl

/-! ## Claim theorems -/

/-- C1: with exactly one platform variant populated, `Generate` produces a
config whose two machine pools both have replica count 1 and whose machine
CIDR is the libvirt-specific override when the libvirt variant is the
populated one, and replica count 3 with the global default machine CIDR for
every other variant (AWS, None, OpenStack). -/
theorem generate_platform_specific_defaults (a : InstallConfigAsset)
    (parents : Parents) (marshal : types.InstallConfig → Except String String)
    (h : parents.Platform.populatedCount = 1) :
    ∃ cfg : types.InstallConfig,
      (Generate a parents marshal).asset.Config = some cfg ∧
      (parents.Platform.Libvirt.isSome = true →
        cfg.Networking.MachineCIDR = libvirt.DefaultMachineCIDR ∧
        cfg.Machines =
          [{ Name := "master", Replicas := some 1 },
           { Name := "worker", Replicas := some 1 }]) ∧
      (parents.Platform.Libvirt = none →
        cfg.Networking.MachineCIDR = defaultMachineCIDR ∧
        cfg.Machines =
          [{ Name := "master", Replicas := some 3 },
           { Name := "worker", Replicas := some 3 }]) := by
  obtain ⟨cid, ssh, bd, cn, ps, pf⟩ := parents
  obtain ⟨oA, oL, oN, oO⟩ := pf
  cases oA <;> cases oL <;> cases oN <;> cases oO <;>
    simp [Platform.populatedCount] at h <;>
    exact ⟨_, materialize_asset_Config _ _ _, by simp [baseConfig],
      by simp [baseConfig]⟩

/-- Witness for C1, at the libvirt variant. -/
theorem generate_platform_specific_defaults_witness :
    ∃ cfg : types.InstallConfig,
      (Generate emptyAsset parentsLibvirt sampleMarshal).asset.Config = some cfg ∧
      (parentsLibvirt.Platform.Libvirt.isSome = true →
        cfg.Networking.MachineCIDR = libvirt.DefaultMachineCIDR ∧
        cfg.Machines =
          [{ Name := "master", Replicas := some 1 },
           { Name := "worker", Replicas := some 1 }]) ∧
      (parentsLibvirt.Platform.Libvirt = none →
        cfg.Networking.MachineCIDR = defaultMachineCIDR ∧
        cfg.Machines =
          [{ Name := "master", Replicas := some 3 },
           { Name := "worker", Replicas := some 3 }]) :=
  generate_platform_specific_defaults emptyAsset parentsLibvirt sampleMarshal
    (by decide)

/-- C2: after a successful fetch and deserialization, `Load` accepts the
artifact (stores it and reports success) exactly when the validator's
verdict is empty; a non-empty verdict is a hard failure wrapped with context
naming the canonical filename, leaving the asset unchanged. -/
theorem load_accepts_iff_empty_verdict (a : InstallConfigAsset) (f : FileFetcher)
    (u : String → Except String types.InstallConfig)
    (v : types.InstallConfig → List String) (file : File) (ws : List String)
    (config : types.InstallConfig)
    (hf : fetchInstallConfigFile f = .ok (some file, ws))
    (hu : u file.Data = .ok config) :
    (v config = [] →
      Load a f u v =
        { found := true, err := none
          asset := { Config := some config, File := some file }
          warnings := ws }) ∧
    (v config ≠ [] →
      Load a f u v =
        { found := false, err := some (.invalid (v config)), asset := a
          warnings := ws } ∧
      (LoadError.invalid (v config)).context =
        some ("invalid \"" ++ installConfigFilename ++ "\" file")) := by
  constructor
  · intro hv
    simp [Load, hf, hu, hv]
  · intro hv
    obtain ⟨x, xs, hvc⟩ : ∃ x xs, v config = x :: xs := by
      cases hvc : v config with
      | nil => exact absurd hvc hv
      | cons x xs => exact ⟨x, xs, rfl⟩
    rw [hvc]
    refine ⟨?_, rfl⟩
    simp [Load, hf, hu, hvc]

/-- Witness for C2: acceptance on an empty verdict (with the file found
under the deprecated name) and rejection on a non-empty one. -/
theorem load_accepts_iff_empty_verdict_witness :
    (Load emptyAsset fetcherDeprecated sampleUnmarshal acceptingValidator =
      { found := true, err := none
        asset := { Config := some sampleConfig
                   File := some { Filename := installConfigFilename
                                  Data := "deprecated-bytes" } }
        warnings :=
          ["Using deprecated install-config.yml file. Use install-config.yaml instead."] }) ∧
    (Load emptyAsset fetcherDeprecated sampleUnmarshal rejectingValidator =
      { found := false
        err := some (.invalid ["spec.baseDomain: Invalid value"])
        asset := emptyAsset
        warnings :=
          ["Using deprecated install-config.yml file. Use install-config.yaml instead."] } ∧
      (LoadError.invalid ["spec.baseDomain: Invalid value"]).context =
        some ("invalid \"" ++ installConfigFilename ++ "\" file")) :=
  ⟨(load_accepts_iff_empty_verdict emptyAsset fetcherDeprecated sampleUnmarshal
      acceptingValidator
      { Filename := installConfigFilename, Data := "deprecated-bytes" }
      ["Using deprecated install-config.yml file. Use install-config.yaml instead."]
      sampleConfig (by rfl) (by rfl)).1 (by rfl),
   (load_accepts_iff_empty_verdict emptyAsset fetcherDeprecated sampleUnmarshal
      rejectingValidator
      { Filename := installConfigFilename, Data := "deprecated-bytes" }
      ["Using deprecated install-config.yml file. Use install-config.yaml instead."]
      sampleConfig (by rfl) (by rfl)).2 (by decide)⟩

/-- C3: file discovery tries the canonical filename first and the deprecated
one second; the first file found wins (so with both present the canonical
one is used, unrenamed and without warning); when the deprecated name is
used, the logical filename is rewritten to the canonical name and the
deprecation warning is emitted. -/
theorem fetch_canonical_then_deprecated (f : FileFetcher) (file₁ file₂ : File) :
    (f installConfigFilename = .ok file₁ →
      fetchInstallConfigFile f = .ok (some file₁, [])) ∧
    (f installConfigFilename = .error .notExist →
      f deprecatedInstallConfigFilename = .ok file₂ →
      fetchInstallConfigFile f = .ok
        (some { file₂ with Filename := installConfigFilename },
         ["Using deprecated " ++ deprecatedInstallConfigFilename ++
           " file. Use " ++ installConfigFilename ++ " instead."])) := by
  constructor
  · intro h1
    simp [fetchInstallConfigFile, fetchLoop, h1]
  · intro h1 h2
    simp [fetchInstallConfigFile, fetchLoop, h1, h2, FetchError.isNotExist]

/-- Witness for C3: storage with both names uses the canonical file;
storage with only the deprecated name renames it and warns. -/
theorem fetch_canonical_then_deprecated_witness :
    fetchInstallConfigFile fetcherBoth =
      .ok (some { Filename := installConfigFilename, Data := "canonical-bytes" },
           []) ∧
    fetchInstallConfigFile fetcherDeprecated =
      .ok (some { Filename := installConfigFilename, Data := "deprecated-bytes" },
           ["Using deprecated install-config.yml file. Use install-config.yaml instead."]) :=
  ⟨(fetch_canonical_then_deprecated fetcherBoth
      { Filename := installConfigFilename, Data := "canonical-bytes" }
      { Filename := "", Data := "" }).1 (by rfl),
   (fetch_canonical_then_deprecated fetcherDeprecated
      { Filename := "", Data := "" }
      { Filename := deprecatedInstallConfigFilename, Data := "deprecated-bytes" }).2
      (by rfl) (by rfl)⟩

/-- C4 counterexample: with two platform variants populated (AWS and
libvirt), `Generate` does not panic — the first case of the switch wins and
generation succeeds — refuting the claim that more than one populated
variant signals fatally. -/
theorem generate_two_variants_does_not_panic :
    (Generate emptyAsset parentsBoth sampleMarshal).outcome = GenerateOutcome.ok ∧
    (Generate emptyAsset parentsBoth sampleMarshal).outcome ≠
      GenerateOutcome.panicked "unknown platform type" :=
  ⟨rfl, by decide⟩

/-- C4 (amended): `Generate` panics (with message "unknown platform type")
exactly when no platform variant is populated; in particular, with exactly
one populated variant the fatal branch is unreachable, and with more than
one populated the first case in the fixed order AWS, Libvirt, None,
OpenStack wins instead of panicking. -/
theorem generate_panics_iff_no_variant (a : InstallConfigAsset)
    (parents : Parents) (marshal : types.InstallConfig → Except String String)
    (msg : String) :
    (Generate a parents marshal).outcome = .panicked msg ↔
      parents.Platform.AWS = none ∧ parents.Platform.Libvirt = none ∧
      parents.Platform.None = none ∧ parents.Platform.OpenStack = none ∧
      msg = "unknown platform type" := by
  obtain ⟨cid, ssh, bd, cn, ps, pf⟩ := parents
  obtain ⟨oA, oL, oN, oO⟩ := pf
  cases oA <;> cases oL <;> cases oN <;> cases oO <;>
    first
      | (simp [Generate, applyPlatform]
         exact materialize_outcome_ne_panicked _ _ _ _)
      | simp [Generate, applyPlatform, eq_comm]

/-- Witness for C4: with no variant populated, `Generate` panics. -/
theorem generate_panics_iff_no_variant_witness :
    (Generate emptyAsset parentsZero sampleMarshal).outcome =
      GenerateOutcome.panicked "unknown platform type" :=
  (generate_panics_iff_no_variant emptyAsset parentsZero sampleMarshal
      "unknown platform type").mpr ⟨rfl, rfl, rfl, rfl, rfl⟩

/-- C5: with exactly one platform variant populated, the synthesized config
has exactly one non-empty platform sub-configuration, matching the input
variant, network-plugin type "OpenshiftSDN", service CIDR 172.30.0.0/16,
one cluster network entry with CIDR 10.128.0.0/14 and host-subnet length 9,
and exactly two machine pools named "master" and "worker". -/
theorem generate_artifact_invariants (a : InstallConfigAsset)
    (parents : Parents) (marshal : types.InstallConfig → Except String String)
    (h : parents.Platform.populatedCount = 1) :
    ∃ cfg : types.InstallConfig,
      (Generate a parents marshal).asset.Config = some cfg ∧
      cfg.AWS = parents.Platform.AWS ∧
      cfg.Libvirt = parents.Platform.Libvirt ∧
      cfg.None = parents.Platform.None ∧
      cfg.OpenStack = parents.Platform.OpenStack ∧
      Platform.populatedCount
        { AWS := cfg.AWS, Libvirt := cfg.Libvirt
          None := cfg.None, OpenStack := cfg.OpenStack } = 1 ∧
      cfg.Networking.NetworkType = "OpenshiftSDN" ∧
      cfg.Networking.ServiceCIDR = "172.30.0.0/16" ∧
      cfg.Networking.ClusterNetworks =
        [{ CIDR := "10.128.0.0/14", HostSubnetLength := 9 }] ∧
      ∃ rm rw : Int,
        cfg.Machines =
          [{ Name := "master", Replicas := some rm },
           { Name := "worker", Replicas := some rw }] := by
  obtain ⟨cid, ssh, bd, cn, ps, pf⟩ := parents
  obtain ⟨oA, oL, oN, oO⟩ := pf
  cases oA <;> cases oL <;> cases oN <;> cases oO <;>
    simp [Platform.populatedCount] at h <;>
    exact ⟨_, materialize_asset_Config _ _ _, rfl, rfl, rfl, rfl, rfl, rfl,
      rfl, rfl, _, _, rfl⟩

/-- Witness for C5, at the AWS variant. -/
theorem generate_artifact_invariants_witness :
    ∃ cfg : types.InstallConfig,
      (Generate emptyAsset parentsAWS sampleMarshal).asset.Config = some cfg ∧
      cfg.AWS = parentsAWS.Platform.AWS ∧
      cfg.Libvirt = parentsAWS.Platform.Libvirt ∧
      cfg.None = parentsAWS.Platform.None ∧
      cfg.OpenStack = parentsAWS.Platform.OpenStack ∧
      Platform.populatedCount
        { AWS := cfg.AWS, Libvirt := cfg.Libvirt
          None := cfg.None, OpenStack := cfg.OpenStack } = 1 ∧
      cfg.Networking.NetworkType = "OpenshiftSDN" ∧
      cfg.Networking.ServiceCIDR = "172.30.0.0/16" ∧
      cfg.Networking.ClusterNetworks =
        [{ CIDR := "10.128.0.0/14", HostSubnetLength := 9 }] ∧
      ∃ rm rw : Int,
        cfg.Machines =
          [{ Name := "master", Replicas := some rm },
           { Name := "worker", Replicas := some rw }] :=
  generate_artifact_invariants emptyAsset parentsAWS sampleMarshal (by decide)

/-- C6: when neither the canonical nor the deprecated filename exists in
storage, `Load` reports not-found (found = false with no error) and leaves
the asset unchanged, so the caller falls back to synthesis. -/
theorem load_reports_not_found (a : InstallConfigAsset) (f : FileFetcher)
    (u : String → Except String types.InstallConfig)
    (v : types.InstallConfig → List String)
    (h1 : f installConfigFilename = .error .notExist)
    (h2 : f deprecatedInstallConfigFilename = .error .notExist) :
    Load a f u v = { found := false, err := none, asset := a, warnings := [] } := by
  simp [Load, fetchInstallConfigFile, fetchLoop, h1, h2, FetchError.isNotExist]

/-- Witness for C6, on empty storage. -/
theorem load_reports_not_found_witness :
    Load emptyAsset fetcherEmpty sampleUnmarshal acceptingValidator =
      { found := false, err := none, asset := emptyAsset, warnings := [] } :=
  load_reports_not_found emptyAsset fetcherEmpty sampleUnmarshal
    acceptingValidator rfl rfl

/-- C7 counterexample: on a deserialization failure `Load` fails hard, but
the error's wrap context is exactly "failed to unmarshal" — it does not
identify which file was at fault (neither filename occurs anywhere in the
rendered message), refuting the claim that the wrap context identifies the
file. -/
theorem load_unmarshal_error_lacks_filename :
    (Load emptyAsset fetcherBoth failingUnmarshal acceptingValidator).err =
      some (.unmarshal "parse error") ∧
    (Load emptyAsset fetcherBoth failingUnmarshal acceptingValidator).found =
      false ∧
    (LoadError.unmarshal "parse error").context = some "failed to unmarshal" ∧
    ¬ List.IsInfix installConfigFilename.data
        (LoadError.unmarshal "parse error").message.data ∧
    ¬ List.IsInfix deprecatedInstallConfigFilename.data
        (LoadError.unmarshal "parse error").message.data :=
  ⟨rfl, rfl, rfl, by decide, by decide⟩

/-- C7 (amended): for every persisted payload whose bytes fail to
deserialize, `Load` returns a hard failure (found = false with a non-nil
error, never a silent fallback), leaving the asset unchanged; the error is
wrapped with the context "failed to unmarshal", which does not name the
offending file. -/
theorem load_unmarshal_error_hard_failure (a : InstallConfigAsset)
    (f : FileFetcher) (u : String → Except String types.InstallConfig)
    (v : types.InstallConfig → List String) (file : File) (ws : List String)
    (e : String)
    (hf : fetchInstallConfigFile f = .ok (some file, ws))
    (hu : u file.Data = .error e) :
    Load a f u v =
      { found := false, err := some (.unmarshal e), asset := a
        warnings := ws } ∧
    (LoadError.unmarshal e).context = some "failed to unmarshal" := by
  refine ⟨?_, rfl⟩
  simp [Load, hf, hu]

/-- Witness for C7. -/
theorem load_unmarshal_error_hard_failure_witness :
    Load emptyAsset fetcherBoth failingUnmarshal acceptingValidator =
      { found := false, err := some (.unmarshal "parse error")
        asset := emptyAsset, warnings := [] } ∧
    (LoadError.unmarshal "parse error").context = some "failed to unmarshal" :=
  load_unmarshal_error_hard_failure emptyAsset fetcherBoth failingUnmarshal
    acceptingValidator
    { Filename := installConfigFilename, Data := "canonical-bytes" } []
    "parse error" (by rfl) (by rfl)

/-- C8: `Generate` is deterministic — its outcome does not depend on the
prior asset state, and whenever it succeeds the produced file (canonical
filename and serialized bytes) is identical across runs from the same
dependency values and serializer. -/
theorem generate_deterministic (a₁ a₂ : InstallConfigAsset) (parents : Parents)
    (marshal : types.InstallConfig → Except String String) :
    (Generate a₁ parents marshal).outcome = (Generate a₂ parents marshal).outcome ∧
    ((Generate a₁ parents marshal).outcome = GenerateOutcome.ok →
      (Generate a₁ parents marshal).asset.File =
        (Generate a₂ parents marshal).asset.File ∧
      ∃ data, (Generate a₁ parents marshal).asset.File =
        some { Filename := installConfigFilename, Data := data }) := by
  rw [Generate_eq a₁, Generate_eq a₂]
  cases h : applyPlatform (baseConfig parents) parents.Platform with
  | none => simp
  | some v =>
    obtain ⟨c, nm, nw⟩ := v
    cases hm : marshal { c with Machines :=
        [{ Name := "master", Replicas := some nm },
         { Name := "worker", Replicas := some nw }] } with
    | error e => simp [materialize_error _ _ _ _ hm]
    | ok d => simp [materialize_ok _ _ _ _ hm]

/-- Witness for C8: generation from a fresh and from a dirty asset state
agree. -/
theorem generate_deterministic_witness :
    (Generate emptyAsset parentsAWS sampleMarshal).outcome =
      (Generate dirtyAsset parentsAWS sampleMarshal).outcome ∧
    ((Generate emptyAsset parentsAWS sampleMarshal).asset.File =
      (Generate dirtyAsset parentsAWS sampleMarshal).asset.File ∧
     ∃ data, (Generate emptyAsset parentsAWS sampleMarshal).asset.File =
       some { Filename := installConfigFilename, Data := data }) :=
  ⟨(generate_deterministic emptyAsset dirtyAsset parentsAWS sampleMarshal).1,
   (generate_deterministic emptyAsset dirtyAsset parentsAWS sampleMarshal).2
     (by rfl)⟩

/-- C9 counterexample: when serialization fails, `Generate` has already
overwritten the asset's `Config` with the synthesized configuration (here
the prior `Config` was `none`), refuting the claim that no generated
artifact state is retained on a serialization error. -/
theorem generate_marshal_error_retains_config :
    (Generate emptyAsset parentsAWS failingMarshal).outcome =
      GenerateOutcome.marshalFailed "boom" ∧
    emptyAsset.Config = none ∧
    (Generate emptyAsset parentsAWS failingMarshal).asset.Config ≠ none :=
  ⟨rfl, rfl, by decide⟩

/-- C9 (amended): whenever `Load` returns an error the asset's `Config` and
`File` are left unchanged; whenever `Generate` returns a serialization
error the asset's `File` is left unchanged but its `Config` holds the
synthesized configuration (so generated state is partially retained). -/
theorem failure_preserves_prior_state (a : InstallConfigAsset) (f : FileFetcher)
    (u : String → Except String types.InstallConfig)
    (v : types.InstallConfig → List String)
    (parents : Parents) (marshal : types.InstallConfig → Except String String)
    (e : String) :
    ((Load a f u v).err.isSome = true → (Load a f u v).asset = a) ∧
    ((Generate a parents marshal).outcome = .marshalFailed e →
      (Generate a parents marshal).asset.File = a.File ∧
      ∃ cfg, (Generate a parents marshal).asset.Config = some cfg) := by
  constructor
  · intro h
    rcases hfe : fetchInstallConfigFile f with e' | ⟨of, ws⟩
    · simp [Load, hfe]
    · rcases of with _ | file
      · simp [Load, hfe]
      · rcases hu : u file.Data with eu | cfg
        · simp [Load, hfe, hu]
        · rcases hv : v cfg with _ | ⟨x, xs⟩
          · exact absurd h (by simp [Load, hfe, hu, hv])
          · simp [Load, hfe, hu, hv]
  · intro hg
    rw [Generate_eq] at hg ⊢
    cases hap : applyPlatform (baseConfig parents) parents.Platform with
    | none => simp [hap] at hg
    | some val =>
      obtain ⟨c, nm, nw⟩ := val
      simp only [hap] at hg
      cases hm : marshal { c with Machines :=
          [{ Name := "master", Replicas := some nm },
           { Name := "worker", Replicas := some nw }] } with
      | ok d => simp [materialize_ok _ _ _ _ hm] at hg
      | error e' => simp [materialize_error _ _ _ _ hm]

/-- Witness for C9: a failing load leaves the asset unchanged; a failing
marshal leaves the file unchanged with the config set. -/
theorem failure_preserves_prior_state_witness :
    (Load emptyAsset fetcherBoth failingUnmarshal acceptingValidator).asset =
      emptyAsset ∧
    ((Generate emptyAsset parentsAWS failingMarshal).asset.File =
      emptyAsset.File ∧
     ∃ cfg, (Generate emptyAsset parentsAWS failingMarshal).asset.Config =
       some cfg) :=
  ⟨(failure_preserves_prior_state emptyAsset fetcherBoth failingUnmarshal
      acceptingValidator parentsAWS failingMarshal "boom").1 (by rfl),
   (failure_preserves_prior_state emptyAsset fetcherBoth failingUnmarshal
      acceptingValidator parentsAWS failingMarshal "boom").2 (by rfl)⟩

/-- C10: if fetching the canonical filename fails with an error other than
not-found, file discovery returns that error immediately — for every
fetcher with that canonical-name behavior, whatever it holds under the
deprecated name — and `Load` surfaces the error with found = false. -/
theorem fetch_hard_error_short_circuits (a : InstallConfigAsset)
    (f : FileFetcher) (u : String → Except String types.InstallConfig)
    (v : types.InstallConfig → List String) (e : FetchError)
    (he : e.isNotExist = false)
    (hf : f installConfigFilename = .error e) :
    fetchInstallConfigFile f = .error e ∧
    Load a f u v =
      { found := false, err := some (.fetch e), asset := a, warnings := [] } := by
  have hfetch : fetchInstallConfigFile f = .error e := by
    simp [fetchInstallConfigFile, fetchLoop, hf, he]
  exact ⟨hfetch, by simp [Load, hfetch]⟩

/-- Witness for C10: an I/O error on the canonical name short-circuits even
though the deprecated name is present in storage. -/
theorem fetch_hard_error_short_circuits_witness :
    fetchInstallConfigFile fetcherIOError = .error (.other "io failure") ∧
    Load emptyAsset fetcherIOError sampleUnmarshal acceptingValidator =
      { found := false, err := some (.fetch (.other "io failure"))
        asset := emptyAsset, warnings := [] } :=
  fetch_hard_error_short_circuits emptyAsset fetcherIOError sampleUnmarshal
    acceptingValidator (.other "io failure") rfl rfl
